import Mathlib

/-!
Verification of the hidden-states layer-selection subsystem of this vLLM fork.

The central source file is `vllm/model_executor/hidden_states_mixin.py`,
which defines `HiddenStatesExtractorMixin` with the operations
`__init_hidden_states__`, `set_aux_hidden_state_layers`,
`set_hidden_state_layers`, `get_aux_hidden_state_layers` and
`has_hidden_states_enabled`.  We embed that mixin shallowly: the mutable
Python object becomes an explicit state record, raised exceptions become
an error sum, and each method becomes a function from state to
`Except`-wrapped state.

Two further components named by the specification are exercised only by the
repository test scripts and their code is not part of the sources here:
the layer-index resolver `SamplingParams.resolve_hidden_states_layers`
(called in `test_v0_hidden_states.py` and `test_v1_intermediate_layers.py`)
and the V1 backend feasibility gate (exercised in `test_v1_limitations.py`).
Those two are modelled from the specification text and are marked as such
in their doc comments.
-/

/-- State of the underlying model object (`self.model` in the mixin).
The only attribute of the model the mixin reads or writes is
`aux_hidden_state_layers`; `none` models the attribute being absent
(`hasattr` false), `some l` models it holding the tuple `l`.
Python tuples of ints are embedded as `List Int`. -/
structure ModelState where
  auxHiddenStateLayers : Option (List Int)
deriving DecidableEq

/-- State of an object using `HiddenStatesExtractorMixin`.
`model = none` models `self.model` not existing (`hasattr(self, "model")`
false).  `modelLayers` is what the abstract method `get_model_layers()`
returns: `none` for Python `None`, `some n` for a layers sequence of
length `n` (the mixin only ever consults `len(model_layers)` and
`model_layers is None`, so the sequence is abstracted to its length). -/
structure MixinState where
  model : Option ModelState
  modelLayers : Option Nat
deriving DecidableEq

/-- Errors raised by the mixin methods.  Constructors stand for the
exception raised at each raise site; payloads are the data interpolated
into the exception message. -/
inductive HSError where
  /-- AttributeError raised by `__init_hidden_states__` when `self.model`
  does not exist. -/
  | attrErrorNoModelMixin : HSError
  /-- AttributeError raised by `set_aux_hidden_state_layers` when
  `self.model` does not exist. -/
  | attrErrorNotInitialized : HSError
  /-- ValueError raised by `set_aux_hidden_state_layers`; carries the
  offending layer indices exactly as given and the layer count, from which
  the message renders the valid range `0` to `num_layers - 1`. -/
  | valueErrorInvalidLayers : List Int → Nat → HSError
  /-- RuntimeError raised by `set_hidden_state_layers` on the all-layers
  path when the layer count cannot be determined. -/
  | runtimeErrorNoLayerCount : HSError
deriving DecidableEq

/-- The `hidden_states_param` argument of `set_hidden_state_layers`, of
Python type `Optional[Union[bool, list[int]]]`.  The `TypeError` guard in
the source defends against values outside this type and is therefore
unreachable in the embedding. -/
inductive HiddenStatesParam where
  | noneParam : HiddenStatesParam
  | boolParam : Bool → HiddenStatesParam
  | listParam : List Int → HiddenStatesParam
deriving DecidableEq

/-- Embedding of `HiddenStatesExtractorMixin.__init_hidden_states__`:
raises AttributeError when `self.model` is absent; otherwise creates the
`aux_hidden_state_layers` attribute with value `tuple()` when it is not
already present, and leaves it untouched when it is. -/
def init_hidden_states (s : MixinState) : Except HSError MixinState :=
  match s.model with
  | none => .error .attrErrorNoModelMixin
  | some m =>
    match m.auxHiddenStateLayers with
    | none => .ok { s with model := some { m with auxHiddenStateLayers := some [] } }
    | some _ => .ok s

/-- Embedding of `HiddenStatesExtractorMixin.set_aux_hidden_state_layers`:
raises AttributeError when `self.model` is absent; when
`get_model_layers()` is not `None`, collects every given index `layer`
with `layer >= num_layers or layer < 0` into `invalid_layers` and raises
ValueError when that list is non-empty; otherwise (also whenever the layer
count is unknown) stores the given tuple verbatim. -/
def set_aux_hidden_state_layers (s : MixinState) (layers : List Int) :
    Except HSError MixinState :=
  match s.model with
  | none => .error .attrErrorNotInitialized
  | some m =>
    match s.modelLayers with
    | some numLayers =>
      let invalid_layers :=
        layers.filter (fun layer => decide ((numLayers : Int) ≤ layer) || decide (layer < 0))
      if invalid_layers = [] then
        .ok { s with model := some { m with auxHiddenStateLayers := some layers } }
      else
        .error (.valueErrorInvalidLayers invalid_layers numLayers)
    | none =>
      .ok { s with model := some { m with auxHiddenStateLayers := some layers } }

/-- Embedding of `HiddenStatesExtractorMixin.set_hidden_state_layers`:
`None` and `False` select the empty tuple; `True` selects
`range(len(get_model_layers()))` and raises RuntimeError when
`get_model_layers()` is `None`; a list is passed through unchanged.  The
selected tuple is then handed to `set_aux_hidden_state_layers`. -/
def set_hidden_state_layers (s : MixinState) (p : HiddenStatesParam) :
    Except HSError MixinState :=
  match p with
  | .noneParam => set_aux_hidden_state_layers s []
  | .boolParam false => set_aux_hidden_state_layers s []
  | .boolParam true =>
    match s.modelLayers with
    | none => .error .runtimeErrorNoLayerCount
    | some n => set_aux_hidden_state_layers s ((List.range n).map Int.ofNat)
  | .listParam xs => set_aux_hidden_state_layers s xs

/-- Embedding of `HiddenStatesExtractorMixin.get_aux_hidden_state_layers`:
returns the stored tuple, or the empty tuple when either `self.model` or
its `aux_hidden_state_layers` attribute is absent. -/
def get_aux_hidden_state_layers (s : MixinState) : List Int :=
  match s.model with
  | none => []
  | some m => m.auxHiddenStateLayers.getD []

/-- Embedding of `HiddenStatesExtractorMixin.has_hidden_states_enabled`:
true when the configured tuple is non-empty. -/
def has_hidden_states_enabled (s : MixinState) : Bool :=
  0 < (get_aux_hidden_state_layers s).length

/-- The user-facing layer specification of the spec data model: `Disabled`
(`hidden_states_param` of `None`/`False`), `AllLayers` (`True`) or an
explicit list of signed indices. -/
inductive LayerSpec where
  | disabled : LayerSpec
  | allLayers : LayerSpec
  | explicitList : List Int → LayerSpec
deriving DecidableEq

/-- Validation errors of the layer-index resolver per the spec error
taxonomy: `ConfigurationError` when the layer count is missing for the
all-layers request, and `InvalidLayerIndexError` carrying the original
pre-normalization invalid values together with the layer count that
determines the valid range `0` to `num_layers - 1`. -/
inductive ResolveError where
  | configurationError : ResolveError
  | invalidLayerIndexError : List Int → Nat → ResolveError
deriving DecidableEq

/-- Modelled from the spec: the negative-offset normalization rule of the
Layer-Index Resolver, `normalized = index if index >= 0 else
num_layers + index`.  The resolver itself
(`SamplingParams.resolve_hidden_states_layers`) is called by the test
scripts but its code is not among the sources. -/
def normalizeIndex (numLayers : Nat) (i : Int) : Int :=
  if 0 ≤ i then i else (numLayers : Int) + i

/-- Modelled from the spec: the Layer-Index Resolver
(`SamplingParams.resolve_hidden_states_layers`, not among the sources;
spec section 4.1).  `Disabled` resolves to the empty set; `AllLayers`
resolves to all indices and fails with `ConfigurationError` when the
layer count is zero/unknown; an explicit list has each index normalized,
indices whose normalized form falls outside the valid range are collected
(original values) into an `InvalidLayerIndexError`, and otherwise the
result is the set of normalized indices, duplicate-free and in ascending
order (realized as a filter of the ascending enumeration of all valid
indices). -/
def resolve_hidden_states_layers (spec : LayerSpec) (numLayers : Nat) :
    Except ResolveError (List Int) :=
  match spec with
  | .disabled => .ok []
  | .allLayers =>
    if numLayers = 0 then .error .configurationError
    else .ok ((List.range numLayers).map Int.ofNat)
  | .explicitList idxs =>
    let normalized := idxs.map (normalizeIndex numLayers)
    let invalid := idxs.filter (fun i =>
      decide (normalizeIndex numLayers i < 0) ||
      decide ((numLayers : Int) ≤ normalizeIndex numLayers i))
    if invalid = [] then
      .ok (((List.range numLayers).map Int.ofNat).filter (fun j => decide (j ∈ normalized)))
    else
      .error (.invalidLayerIndexError invalid numLayers)

/-- Backend extraction capability per the spec data model: either any
subset of layers is extractable, or only a fixed available subset is. -/
inductive BackendCapability where
  | unrestricted : BackendCapability
  | restricted : List Int → BackendCapability
deriving DecidableEq

/-- Outcome of the backend feasibility gate per the spec data model.
`unavailable` carries the requested and available sets as its
diagnostic. -/
inductive ExtractionOutcome where
  | full : List Int → ExtractionOutcome
  | partialResult : List Int → List Int → ExtractionOutcome
  | unavailable : List Int → List Int → ExtractionOutcome
deriving DecidableEq

/-- Modelled from the spec: the Backend Feasibility Gate (spec section
4.3), whose implementation lives in the V1 engine outside the sources and
is exercised by `test_v1_limitations.py`.  Unrestricted capability always
yields `Full(requested)`; under `Restricted(available)`, a requested set
contained in `available` yields `Full`, a non-empty intersection yields
`Partial(honored, dropped)`, and an empty intersection yields
`Unavailable` with a diagnostic listing both sets. -/
def gate (requested : List Int) (cap : BackendCapability) : ExtractionOutcome :=
  match cap with
  | .unrestricted => .full requested
  | .restricted available =>
    if requested.all (fun i => decide (i ∈ available)) then
      .full requested
    else if requested.any (fun i => decide (i ∈ available)) then
      .partialResult (requested.filter (fun i => decide (i ∈ available)))
        (requested.filter (fun i => !(decide (i ∈ available))))
    else
      .unavailable requested available

theorem mem_range_map_ofNat (n : Nat) (j : Int) :
    j ∈ (List.range n).map Int.ofNat ↔ 0 ≤ j ∧ j < (n : Int) := by
  constructor
  · intro hj
    rcases List.mem_map.mp hj with ⟨a, ha, rfl⟩
    exact ⟨Int.ofNat_nonneg a, Int.ofNat_lt.mpr (List.mem_range.mp ha)⟩
  · rintro ⟨h0, hn⟩
    rcases Int.eq_ofNat_of_zero_le h0 with ⟨a, rfl⟩
    exact List.mem_map.mpr ⟨a, List.mem_range.mpr (Int.ofNat_lt.mp hn), rfl⟩

theorem resolve_explicit_of_valid (n : Nat) (idxs : List Int)
    (h : ∀ i ∈ idxs, 0 ≤ normalizeIndex n i ∧ normalizeIndex n i < (n : Int)) :
    resolve_hidden_states_layers (LayerSpec.explicitList idxs) n =
      Except.ok (((List.range n).map Int.ofNat).filter
        (fun j => decide (j ∈ idxs.map (normalizeIndex n)))) := by
  have hinv : idxs.filter (fun i =>
      decide (normalizeIndex n i < 0) || decide ((n : Int) ≤ normalizeIndex n i)) = [] := by
    apply List.filter_eq_nil_iff.mpr
    intro a ha
    have ha' := h a ha
    simp only [Bool.or_eq_true, decide_eq_true_iff, not_or, not_lt, not_le]
    omega
  simp [resolve_hidden_states_layers, hinv]

theorem resolve_explicit_mem (n : Nat) (idxs : List Int)
    (h : ∀ i ∈ idxs, 0 ≤ normalizeIndex n i ∧ normalizeIndex n i < (n : Int)) (j : Int) :
    j ∈ ((List.range n).map Int.ofNat).filter
        (fun j => decide (j ∈ idxs.map (normalizeIndex n))) ↔
      j ∈ idxs.map (normalizeIndex n) := by
  rw [List.mem_filter]
  constructor
  · rintro ⟨-, hj⟩
    exact decide_eq_true_iff.mp hj
  · intro hj
    refine ⟨?_, decide_eq_true_iff.mpr hj⟩
    rcases List.mem_map.mp hj with ⟨i, hi, rfl⟩
    exact (mem_range_map_ofNat n _).mpr (h i hi)

theorem resolve_explicit_pairwise (n : Nat) (idxs out : List Int)
    (h : resolve_hidden_states_layers (LayerSpec.explicitList idxs) n = Except.ok out) :
    List.Pairwise (fun a b => a < b) out := by
  simp only [resolve_hidden_states_layers] at h
  split at h
  · have hout : out = ((List.range n).map Int.ofNat).filter
        (fun j => decide (j ∈ idxs.map (normalizeIndex n))) := by
      cases h
      rfl
    subst hout
    exact (((List.pairwise_lt_range n).map Int.ofNat
      (fun a b hab => Int.ofNat_lt.mpr hab)).filter _)
  · cases h

theorem set_aux_ok_of_valid (s : MixinState) (m : ModelState) (n : Nat) (layers : List Int)
    (hm : s.model = some m) (hl : s.modelLayers = some n)
    (hv : ∀ l ∈ layers, 0 ≤ l ∧ l < (n : Int)) :
    set_aux_hidden_state_layers s layers =
      Except.ok { s with model := some { m with auxHiddenStateLayers := some layers } } := by
  have hinv : layers.filter
      (fun layer => decide ((n : Int) ≤ layer) || decide (layer < 0)) = [] := by
    apply List.filter_eq_nil_iff.mpr
    intro a ha
    have ha' := hv a ha
    simp only [Bool.or_eq_true, decide_eq_true_iff, not_or, not_lt, not_le]
    omega
  rcases s with ⟨mo, ml⟩
  obtain rfl : mo = some m := hm
  obtain rfl : ml = some n := hl
  simp [set_aux_hidden_state_layers, hinv]

theorem set_aux_ok_of_unknown (s : MixinState) (m : ModelState) (layers : List Int)
    (hm : s.model = some m) (hl : s.modelLayers = none) :
    set_aux_hidden_state_layers s layers =
      Except.ok { s with model := some { m with auxHiddenStateLayers := some layers } } := by
  rcases s with ⟨mo, ml⟩
  obtain rfl : mo = some m := hm
  obtain rfl : ml = none := hl
  simp [set_aux_hidden_state_layers]

theorem set_aux_error_of_invalid (s : MixinState) (m : ModelState) (n : Nat) (layers : List Int)
    (hm : s.model = some m) (hl : s.modelLayers = some n)
    (hbad : ∃ l ∈ layers, l < 0 ∨ (n : Int) ≤ l) :
    set_aux_hidden_state_layers s layers =
      Except.error (HSError.valueErrorInvalidLayers
        (layers.filter (fun layer => decide ((n : Int) ≤ layer) || decide (layer < 0))) n) := by
  have hne : layers.filter
      (fun layer => decide ((n : Int) ≤ layer) || decide (layer < 0)) ≠ [] := by
    rcases hbad with ⟨l, hl', hcase⟩
    intro hnil
    have hforall := List.filter_eq_nil_iff.mp hnil l hl'
    simp only [Bool.or_eq_true, decide_eq_true_iff, not_or, not_lt, not_le] at hforall
    omega
  rcases s with ⟨mo, ml⟩
  obtain rfl : mo = some m := hm
  obtain rfl : ml = some n := hl
  simp [set_aux_hidden_state_layers, hne]

theorem set_aux_error_elim (s : MixinState) (m : ModelState) (n : Nat) (layers : List Int)
    (e : HSError) (hm : s.model = some m) (hl : s.modelLayers = some n)
    (h : set_aux_hidden_state_layers s layers = Except.error e) :
    ∃ l ∈ layers, l < 0 ∨ (n : Int) ≤ l := by
  by_contra hno
  push_neg at hno
  rw [set_aux_ok_of_valid s m n layers hm hl hno] at h
  cases h

theorem get_aux_of_stored (s : MixinState) (m : ModelState) (layers : List Int)
    (hm : s.model = some m) (ha : m.auxHiddenStateLayers = some layers) :
    get_aux_hidden_state_layers s = layers := by
  simp [get_aux_hidden_state_layers, hm, ha]

theorem resolve_explicit_order_independent (n : Nat) (idxs idxs' : List Int)
    (hmem : ∀ j : Int, j ∈ idxs.map (normalizeIndex n) ↔ j ∈ idxs'.map (normalizeIndex n))
    (h : ∀ i ∈ idxs, 0 ≤ normalizeIndex n i ∧ normalizeIndex n i < (n : Int)) :
    resolve_hidden_states_layers (LayerSpec.explicitList idxs) n =
      resolve_hidden_states_layers (LayerSpec.explicitList idxs') n := by
  have h' : ∀ i ∈ idxs', 0 ≤ normalizeIndex n i ∧ normalizeIndex n i < (n : Int) := by
    intro i hi
    have hmem' : normalizeIndex n i ∈ idxs.map (normalizeIndex n) :=
      (hmem _).mpr (List.mem_map.mpr ⟨i, hi, rfl⟩)
    rcases List.mem_map.mp hmem' with ⟨i0, hi0, heq⟩
    rw [← heq]
    exact h i0 hi0
  rw [resolve_explicit_of_valid n idxs h, resolve_explicit_of_valid n idxs' h']
  congr 1
  apply List.filter_congr
  intro x hx
  rw [decide_eq_decide]
  exact hmem x

/-- C1: the mixin setters of the source do not normalize negative indices;
setting the explicit list `[-1]` with 32 model layers raises ValueError
(the index is collected into `invalid_layers` because `-1 < 0`) instead of
yielding the layer set containing 31 as the claim states. -/
theorem hs_C1_counterexample :
    set_hidden_state_layers ⟨some ⟨some []⟩, some 32⟩ (HiddenStatesParam.listParam [-1]) =
      Except.error (HSError.valueErrorInvalidLayers [-1] 32) := rfl

/-- C1 (amended): the spec-modelled resolver normalizes each index of an
explicit list by the negative-offset rule, so that, with 32 layers,
resolving `[-1]` yields the set containing 31 and resolving `[0, 15, -1]`
yields the ascending set 0, 15, 31; setting a list directly on the mixin
performs no normalization, and any negative index is rejected with
ValueError. -/
theorem hs_C1_amended :
    (∀ (n : Nat) (idxs : List Int),
      (∀ i ∈ idxs, 0 ≤ normalizeIndex n i ∧ normalizeIndex n i < (n : Int)) →
      ∃ out, resolve_hidden_states_layers (LayerSpec.explicitList idxs) n = Except.ok out ∧
        ∀ j : Int, j ∈ out ↔ j ∈ idxs.map (normalizeIndex n)) ∧
    resolve_hidden_states_layers (LayerSpec.explicitList [-1]) 32 = Except.ok [31] ∧
    resolve_hidden_states_layers (LayerSpec.explicitList [0, 15, -1]) 32 =
      Except.ok [0, 15, 31] ∧
    (∀ (s : MixinState) (m : ModelState) (n : Nat) (layers : List Int),
      s.model = some m → s.modelLayers = some n → (∃ l ∈ layers, l < 0) →
      ∃ e, set_aux_hidden_state_layers s layers = Except.error e) := by
  refine ⟨?_, rfl, rfl, ?_⟩
  · intro n idxs h
    exact ⟨_, resolve_explicit_of_valid n idxs h, resolve_explicit_mem n idxs h⟩
  · intro s m n layers hm hl hneg
    rcases hneg with ⟨l, hmem, hneg⟩
    exact ⟨_, set_aux_error_of_invalid s m n layers hm hl ⟨l, hmem, Or.inl hneg⟩⟩

/-- C1 witness: the amended normalization statement applied to the
concrete list from the spec example at 32 layers. -/
theorem hs_C1_witness :
    ∃ out, resolve_hidden_states_layers (LayerSpec.explicitList [0, 15, -1]) 32 =
        Except.ok out ∧
      ∀ j : Int, j ∈ out ↔ j ∈ ([0, 15, -1] : List Int).map (normalizeIndex 32) :=
  hs_C1_amended.1 32 [0, 15, -1] (by decide)

/-- C2: the mixin stores an explicit list verbatim, so setting
`[2, 0, 2]` and setting `[0, 2]` produce different stored layer tuples,
contradicting the claimed duplicate collapse and input-order
independence of the stored/returned set. -/
theorem hs_C2_counterexample :
    set_hidden_state_layers ⟨some ⟨some []⟩, some 32⟩ (HiddenStatesParam.listParam [2, 0, 2]) =
        Except.ok ⟨some ⟨some [2, 0, 2]⟩, some 32⟩ ∧
    set_hidden_state_layers ⟨some ⟨some []⟩, some 32⟩ (HiddenStatesParam.listParam [0, 2]) =
        Except.ok ⟨some ⟨some [0, 2]⟩, some 32⟩ ∧
    (get_aux_hidden_state_layers ⟨some ⟨some [2, 0, 2]⟩, some 32⟩ ==
      get_aux_hidden_state_layers ⟨some ⟨some [0, 2]⟩, some 32⟩) = false :=
  ⟨rfl, rfl, rfl⟩

/-- C2 (amended): the mixin of the source stores and returns an in-range
explicit list exactly as given, order and duplicates preserved; it is the
spec-modelled resolver whose output is strictly ascending (hence
duplicate-free) and independent of input order and duplication, with
`resolve([2,0,2]) = resolve([0,2])` at 32 layers. -/
theorem hs_C2_amended :
    (∀ (s : MixinState) (m : ModelState) (n : Nat) (layers : List Int),
      s.model = some m → s.modelLayers = some n →
      (∀ l ∈ layers, 0 ≤ l ∧ l < (n : Int)) →
      ∃ s', set_hidden_state_layers s (HiddenStatesParam.listParam layers) = Except.ok s' ∧
        get_aux_hidden_state_layers s' = layers) ∧
    (∀ (n : Nat) (idxs out : List Int),
      resolve_hidden_states_layers (LayerSpec.explicitList idxs) n = Except.ok out →
      List.Pairwise (fun a b => a < b) out) ∧
    (∀ (n : Nat) (idxs idxs' : List Int),
      (∀ j : Int, j ∈ idxs.map (normalizeIndex n) ↔ j ∈ idxs'.map (normalizeIndex n)) →
      (∀ i ∈ idxs, 0 ≤ normalizeIndex n i ∧ normalizeIndex n i < (n : Int)) →
      resolve_hidden_states_layers (LayerSpec.explicitList idxs) n =
        resolve_hidden_states_layers (LayerSpec.explicitList idxs') n) ∧
    resolve_hidden_states_layers (LayerSpec.explicitList [2, 0, 2]) 32 =
      resolve_hidden_states_layers (LayerSpec.explicitList [0, 2]) 32 := by
  refine ⟨?_, ?_, ?_, rfl⟩
  · intro s m n layers hm hl hv
    exact ⟨_, set_aux_ok_of_valid s m n layers hm hl hv, get_aux_of_stored _ _ _ rfl rfl⟩
  · intro n idxs out h
    exact resolve_explicit_pairwise n idxs out h
  · intro n idxs idxs' hmem h
    exact resolve_explicit_order_independent n idxs idxs' hmem h

/-- C2 witness: verbatim storage of the in-range list `[2, 0, 2]` on a
32-layer model. -/
theorem hs_C2_witness :
    ∃ s', set_hidden_state_layers ⟨some ⟨none⟩, some 32⟩
        (HiddenStatesParam.listParam [2, 0, 2]) = Except.ok s' ∧
      get_aux_hidden_state_layers s' = [2, 0, 2] :=
  hs_C2_amended.1 ⟨some ⟨none⟩, some 32⟩ ⟨none⟩ 32 [2, 0, 2] rfl rfl (by decide)

/-- C3: with a known layer count, the all-layers request
(`hidden_states_param` of `True`) succeeds and configures exactly the
layer indices 0 through the layer count minus one. -/
theorem hs_C3 : ∀ (s : MixinState) (m : ModelState) (n : Nat),
    s.model = some m → s.modelLayers = some n → 0 < n →
    ∃ s', set_hidden_state_layers s (HiddenStatesParam.boolParam true) = Except.ok s' ∧
      get_aux_hidden_state_layers s' = (List.range n).map Int.ofNat ∧
      (∀ j : Int, j ∈ get_aux_hidden_state_layers s' ↔ 0 ≤ j ∧ j < (n : Int)) := by
  intro s m n hm hl _hn
  rcases s with ⟨mo, ml⟩
  obtain rfl : mo = some m := hm
  obtain rfl : ml = some n := hl
  have hv : ∀ l ∈ (List.range n).map Int.ofNat, 0 ≤ l ∧ l < (n : Int) := by
    intro l hlmem
    exact (mem_range_map_ofNat n l).mp hlmem
  refine ⟨⟨some { m with auxHiddenStateLayers := some ((List.range n).map Int.ofNat) },
      some n⟩, ?_, get_aux_of_stored _ _ _ rfl rfl, ?_⟩
  · exact set_aux_ok_of_valid ⟨some m, some n⟩ m n ((List.range n).map Int.ofNat) rfl rfl hv
  · rw [get_aux_of_stored _ _ _ rfl rfl]
    exact fun j => mem_range_map_ofNat n j

/-- C3 witness: the all-layers request on a model reporting 32 layers. -/
theorem hs_C3_witness :
    ∃ s', set_hidden_state_layers ⟨some ⟨none⟩, some 32⟩
        (HiddenStatesParam.boolParam true) = Except.ok s' ∧
      get_aux_hidden_state_layers s' = (List.range 32).map Int.ofNat ∧
      (∀ j : Int, j ∈ get_aux_hidden_state_layers s' ↔ 0 ≤ j ∧ j < (32 : Int)) :=
  hs_C3 ⟨some ⟨none⟩, some 32⟩ ⟨none⟩ 32 rfl rfl (by decide)

/-- C4: the source setter validates raw indices without normalization, so
the list `[-1]` under 32 layers — whose normalized index 31 is inside the
valid range, meaning the claim predicts success — instead raises
ValueError. -/
theorem hs_C4_counterexample :
    set_aux_hidden_state_layers ⟨some ⟨some []⟩, some 32⟩ [-1] =
      Except.error (HSError.valueErrorInvalidLayers [-1] 32) := rfl

/-- C4 (amended): with a known layer count, setting an explicit list fails
with ValueError exactly when some raw, un-normalized index lies outside
the valid range; the error carries the offending original values and the
layer count determining the range 0 to the count minus one; when every
raw index is in range the tuple is stored and read back unchanged. -/
theorem hs_C4_amended : ∀ (s : MixinState) (m : ModelState) (n : Nat) (layers : List Int),
    s.model = some m → s.modelLayers = some n →
    ((∃ l ∈ layers, l < 0 ∨ (n : Int) ≤ l) →
      set_aux_hidden_state_layers s layers =
        Except.error (HSError.valueErrorInvalidLayers
          (layers.filter (fun layer => decide ((n : Int) ≤ layer) || decide (layer < 0))) n)) ∧
    (∀ e, set_aux_hidden_state_layers s layers = Except.error e →
      ∃ l ∈ layers, l < 0 ∨ (n : Int) ≤ l) ∧
    ((∀ l ∈ layers, 0 ≤ l ∧ l < (n : Int)) →
      ∃ s', set_aux_hidden_state_layers s layers = Except.ok s' ∧
        get_aux_hidden_state_layers s' = layers) := by
  intro s m n layers hm hl
  refine ⟨set_aux_error_of_invalid s m n layers hm hl,
    fun e he => set_aux_error_elim s m n layers e hm hl he,
    fun hv => ⟨_, set_aux_ok_of_valid s m n layers hm hl hv,
      get_aux_of_stored _ _ _ rfl rfl⟩⟩

/-- C4 witness: the in-range list `[0, 31]` is stored successfully on a
32-layer model. -/
theorem hs_C4_witness :
    ∃ s', set_aux_hidden_state_layers ⟨some ⟨none⟩, some 32⟩ [0, 31] = Except.ok s' ∧
      get_aux_hidden_state_layers s' = [0, 31] :=
  (hs_C4_amended ⟨some ⟨none⟩, some 32⟩ ⟨none⟩ 32 [0, 31] rfl rfl).2.2 (by decide)

/-- C5: per the spec ordering of the gate branches, an empty requested set
is a subset of any available set and therefore yields the Full outcome
even though its intersection with the available set is empty,
contradicting the claim quantified over every requested set. -/
theorem hs_C5_counterexample :
    gate [] (BackendCapability.restricted [31]) = ExtractionOutcome.full [] := rfl

/-- C5 (amended): for every non-empty requested set whose intersection
with the restricted available set is empty, the spec-modelled feasibility
gate returns the Unavailable outcome carrying both sets as its
diagnostic — a first-class result, not an exception and not an empty
map. -/
theorem hs_C5_amended : ∀ (requested available : List Int),
    requested ≠ [] → (∀ i ∈ requested, i ∉ available) →
    gate requested (BackendCapability.restricted available) =
      ExtractionOutcome.unavailable requested available := by
  intro req av hne hdisj
  have hall : ¬ (req.all (fun i => decide (i ∈ av)) = true) := by
    simp only [List.all_eq_true, decide_eq_true_iff]
    intro hAll
    rcases req with _ | ⟨x, xs⟩
    · exact hne rfl
    · exact hdisj x (by simp) (hAll x (by simp))
  have hany : ¬ (req.any (fun i => decide (i ∈ av)) = true) := by
    simp only [List.any_eq_true, decide_eq_true_iff]
    rintro ⟨x, hx, hxa⟩
    exact hdisj x hx hxa
  simp only [gate]
  rw [if_neg hall, if_neg hany]

/-- C5 witness: the documented case of requesting the intermediate layers
0 and 15 when only the final layer 31 is available. -/
theorem hs_C5_witness :
    gate [0, 15] (BackendCapability.restricted [31]) =
      ExtractionOutcome.unavailable [0, 15] [31] :=
  hs_C5_amended [0, 15] [31] (by decide) (by decide)

/-- C6: the disabled specification (`hidden_states_param` of `None` or
`False`) always configures the empty layer set, whether or not the layer
count is known, and never takes the RuntimeError path that models
ConfigurationError; the spec-modelled resolver likewise maps the disabled
spec to the empty set for every layer count. -/
theorem hs_C6 :
    (∀ (s : MixinState) (m : ModelState) (p : HiddenStatesParam),
      s.model = some m →
      (p = HiddenStatesParam.noneParam ∨ p = HiddenStatesParam.boolParam false) →
      ∃ s', set_hidden_state_layers s p = Except.ok s' ∧
        get_aux_hidden_state_layers s' = []) ∧
    (∀ n : Nat, resolve_hidden_states_layers LayerSpec.disabled n = Except.ok []) := by
  constructor
  · intro s m p hm hp
    rcases s with ⟨mo, ml⟩
    obtain rfl : mo = some m := hm
    have hset : set_aux_hidden_state_layers ⟨some m, ml⟩ [] =
        Except.ok ⟨some { m with auxHiddenStateLayers := some [] }, ml⟩ := by
      rcases ml with _ | n
      · exact set_aux_ok_of_unknown _ m [] rfl rfl
      · exact set_aux_ok_of_valid _ m n [] rfl rfl (by simp)
    rcases hp with rfl | rfl
    · exact ⟨_, hset, get_aux_of_stored _ _ _ rfl rfl⟩
    · exact ⟨_, hset, get_aux_of_stored _ _ _ rfl rfl⟩
  · intro n
    rfl

/-- C6 witness: the disabled parameter on a mixin whose layer count is
unknown still stores the empty set. -/
theorem hs_C6_witness :
    ∃ s', set_hidden_state_layers ⟨some ⟨none⟩, none⟩ HiddenStatesParam.noneParam =
        Except.ok s' ∧
      get_aux_hidden_state_layers s' = [] :=
  hs_C6.1 ⟨some ⟨none⟩, none⟩ ⟨none⟩ HiddenStatesParam.noneParam rfl (Or.inl rfl)

/-- C7: a model adapter reporting zero layers does not trigger the
RuntimeError of the all-layers path — the request succeeds and silently
stores the empty set, exactly the silent all-as-none treatment the claim
rules out; only an unknown (`None`) layer count raises. -/
theorem hs_C7_counterexample :
    set_hidden_state_layers ⟨some ⟨some [5]⟩, some 0⟩ (HiddenStatesParam.boolParam true) =
      Except.ok ⟨some ⟨some []⟩, some 0⟩ := rfl

/-- C7 (amended): the all-layers request fails with RuntimeError (the
ConfigurationError of the spec taxonomy) exactly when `get_model_layers()`
returns `None`; when the adapter reports zero layers the request instead
succeeds and stores the empty set. -/
theorem hs_C7_amended :
    (∀ s : MixinState, s.modelLayers = none →
      set_hidden_state_layers s (HiddenStatesParam.boolParam true) =
        Except.error HSError.runtimeErrorNoLayerCount) ∧
    (∀ (s : MixinState) (m : ModelState), s.model = some m → s.modelLayers = some 0 →
      ∃ s', set_hidden_state_layers s (HiddenStatesParam.boolParam true) = Except.ok s' ∧
        get_aux_hidden_state_layers s' = []) := by
  constructor
  · intro s hl
    simp [set_hidden_state_layers, hl]
  · intro s m hm hl
    rcases s with ⟨mo, ml⟩
    obtain rfl : mo = some m := hm
    obtain rfl : ml = some 0 := hl
    refine ⟨⟨some { m with auxHiddenStateLayers := some [] }, some 0⟩, ?_,
      get_aux_of_stored _ _ _ rfl rfl⟩
    exact set_aux_ok_of_valid ⟨some m, some 0⟩ m 0 [] rfl rfl (by simp)

/-- C7 witness: the all-layers request with an unknown layer count raises
RuntimeError. -/
theorem hs_C7_witness :
    set_hidden_state_layers ⟨some ⟨none⟩, none⟩ (HiddenStatesParam.boolParam true) =
      Except.error HSError.runtimeErrorNoLayerCount :=
  hs_C7_amended.1 ⟨some ⟨none⟩, none⟩ rfl

/-- C8: setting a valid resolved layer set through the internal setter and
immediately reading it back returns the identical set. -/
theorem hs_C8 : ∀ (s : MixinState) (m : ModelState) (n : Nat) (layers : List Int),
    s.model = some m → s.modelLayers = some n →
    (∀ l ∈ layers, 0 ≤ l ∧ l < (n : Int)) →
    ∃ s', set_aux_hidden_state_layers s layers = Except.ok s' ∧
      get_aux_hidden_state_layers s' = layers := by
  intro s m n layers hm hl hv
  exact ⟨_, set_aux_ok_of_valid s m n layers hm hl hv, get_aux_of_stored _ _ _ rfl rfl⟩

/-- C8 witness: round trip of the valid set 0, 15, 31 on a 32-layer
model. -/
theorem hs_C8_witness :
    ∃ s', set_aux_hidden_state_layers ⟨some ⟨none⟩, some 32⟩ [0, 15, 31] = Except.ok s' ∧
      get_aux_hidden_state_layers s' = [0, 15, 31] :=
  hs_C8 ⟨some ⟨none⟩, some 32⟩ ⟨none⟩ 32 [0, 15, 31] rfl rfl (by decide)

/-- C9: a model that already carries a non-empty
`aux_hidden_state_layers` attribute is left untouched by initialization,
so reading back immediately after a successful initialization returns
that non-empty tuple, not the empty default the claim promises. -/
theorem hs_C9_counterexample :
    init_hidden_states ⟨some ⟨some [3]⟩, some 32⟩ = Except.ok ⟨some ⟨some [3]⟩, some 32⟩ ∧
    (get_aux_hidden_state_layers ⟨some ⟨some [3]⟩, some 32⟩).isEmpty = false :=
  ⟨rfl, rfl⟩

/-- C9 (amended): initialization fails with AttributeError (the
PreconditionError of the spec taxonomy) when the model attribute does not
exist; on success it establishes the empty default only when the
extraction-layers attribute was absent, and preserves any value already
present. -/
theorem hs_C9_amended :
    (∀ s : MixinState, s.model = none →
      init_hidden_states s = Except.error HSError.attrErrorNoModelMixin) ∧
    (∀ (s : MixinState) (m : ModelState), s.model = some m →
      m.auxHiddenStateLayers = none →
      ∃ s', init_hidden_states s = Except.ok s' ∧ get_aux_hidden_state_layers s' = []) ∧
    (∀ (s : MixinState) (m : ModelState) (l : List Int), s.model = some m →
      m.auxHiddenStateLayers = some l →
      init_hidden_states s = Except.ok s ∧ get_aux_hidden_state_layers s = l) := by
  refine ⟨?_, ?_, ?_⟩
  · intro s hm
    simp [init_hidden_states, hm]
  · intro s m hm ha
    refine ⟨{ s with model := some { m with auxHiddenStateLayers := some [] } }, ?_,
      get_aux_of_stored _ _ _ rfl rfl⟩
    simp [init_hidden_states, hm, ha]
  · intro s m l hm ha
    exact ⟨by simp [init_hidden_states, hm, ha], get_aux_of_stored s m l hm ha⟩

/-- C9 witness: initialization of a model lacking the attribute succeeds
and the configured set reads back empty. -/
theorem hs_C9_witness :
    ∃ s', init_hidden_states ⟨some ⟨none⟩, some 32⟩ = Except.ok s' ∧
      get_aux_hidden_state_layers s' = [] :=
  hs_C9_amended.2.1 ⟨some ⟨none⟩, some 32⟩ ⟨none⟩ rfl rfl

/-- C10: when `get_model_layers()` returns `None`, the internal setter
performs no range validation: every tuple, including negative or
arbitrarily large indices, is stored verbatim and read back as such. -/
theorem hs_C10 : ∀ (s : MixinState) (m : ModelState) (layers : List Int),
    s.model = some m → s.modelLayers = none →
    ∃ s', set_aux_hidden_state_layers s layers = Except.ok s' ∧
      get_aux_hidden_state_layers s' = layers := by
  intro s m layers hm hl
  exact ⟨_, set_aux_ok_of_unknown s m layers hm hl, get_aux_of_stored _ _ _ rfl rfl⟩

/-- C10 witness: the wildly out-of-range tuple with indices -5 and 1000 is
accepted and returned verbatim when the layer count is unknown. -/
theorem hs_C10_witness :
    ∃ s', set_aux_hidden_state_layers ⟨some ⟨none⟩, none⟩ [-5, 1000] = Except.ok s' ∧
      get_aux_hidden_state_layers s' = [-5, 1000] :=
  hs_C10 ⟨some ⟨none⟩, none⟩ ⟨none⟩ [-5, 1000] rfl rfl
